import Mathlib

/-!
Formal model of `nsone-reports.py`, the single source file of this
repository.  The two components with logic are modelled shallowly:

* `start_from` — the time-window start computation of `get_reports`
  (lines 94-97): `int((utcnow() - timedelta(**{unit: amount}) - epoch).total_seconds())`.
  Time is carried in microseconds (the resolution of `datetime`/`timedelta`)
  and the `int(...)` truncation toward zero is `Int.tdiv`.
* `get_reports_handle` — the response handling of `get_reports`
  (lines 109-113).
* `convert_timestamp` (lines 116-118) — epoch seconds to a local-time
  `"%d.%m.%Y %H:%M:%S"` string; local time is UTC plus an offset `tz` in
  seconds (the offset `datetime.fromtimestamp` applies at that instant).
* `parse_reports` / `parse_items` / `parseItem` — the normalization loop
  (lines 121-153).  Exceptions are modelled with `Except`: a `KeyError` is
  caught and turned into `sys_exit` (lines 149-151), `TypeError`/`ValueError`
  from `int()` propagate out of the function; each of them ends the process
  with no report.
-/

namespace NsoneReports

/-- Time units accepted by the `--unit` flag (`parse_args`, lines 20-33);
each is a valid keyword argument of `timedelta`. -/
inductive TUnit where
  | seconds
  | microseconds
  | milliseconds
  | minutes
  | hours
  | days
  | weeks
  deriving DecidableEq

/-- Length of one unit in microseconds, the resolution of `timedelta`. -/
def TUnit.micros : TUnit → Nat
  | .seconds => 1000000
  | .microseconds => 1
  | .milliseconds => 1000
  | .minutes => 60000000
  | .hours => 3600000000
  | .days => 86400000000
  | .weeks => 604800000000

/-- Lines 94-97 of `get_reports`: `epoch = datetime(1970, 1, 1)`;
`d = datetime.utcnow() - timedelta(**{unit: amount})`;
`start_from = int((d - epoch).total_seconds())`.  `now_us` is the current
UTC time in microseconds since the epoch; the subtraction is exact at
microsecond resolution and `int()` truncates the quotient toward zero,
which `Int.tdiv` models. -/
def start_from (now_us : Nat) (unit : TUnit) (amount : Nat) : Int :=
  Int.tdiv ((now_us : Int) - (amount : Int) * (unit.micros : Int)) 1000000

/-- Zero-padded two-digit decimal rendering, as `strftime` `%d`, `%m`,
`%H`, `%M`, `%S` produce for values below 100. -/
def pad2 (n : Nat) : String :=
  if n < 10 then "0" ++ toString n else toString n

/-- Proleptic Gregorian civil date `(year, month, day)` from a count of
days since 1970-01-01, the standard era-based algorithm used by civil-time
libraries; models the calendar part of `datetime.fromtimestamp`. -/
def civilFromDays (z : Int) : Int × Nat × Nat :=
  let z2 := z + 719468
  let era : Int := z2 / 146097
  let doe : Nat := (z2 - era * 146097).toNat
  let yoe : Nat := (doe - doe / 1460 + doe / 36524 - doe / 146096) / 365
  let y : Int := (yoe : Int) + era * 400
  let doy : Nat := doe - (365 * yoe + yoe / 4 - yoe / 100)
  let mp : Nat := (5 * doy + 2) / 153
  let d : Nat := doy - (153 * mp + 2) / 5 + 1
  let m : Nat := if mp < 10 then mp + 3 else mp - 9
  (if m ≤ 2 then y + 1 else y, m, d)

/-- `convert_timestamp` (lines 116-118):
`datetime.fromtimestamp(int(timestamp)).strftime("%d.%m.%Y %H:%M:%S")`.
`fromtimestamp` converts to local time: UTC plus the offset `tz` in
seconds.  Day count and second-of-day use floor division and a nonnegative
remainder, as civil time does; with a positive divisor `Int` `/` and `%`
(E-division) are exactly that. -/
def convert_timestamp (tz : Int) (timestamp : Int) : String :=
  let t := timestamp + tz
  let days : Int := t / 86400
  let sod : Nat := (t % 86400).toNat
  match civilFromDays days with
  | (y, m, d) =>
    pad2 d ++ "." ++ pad2 m ++ "." ++ toString y ++ " " ++
      pad2 (sod / 3600) ++ ":" ++ pad2 (sod % 3600 / 60) ++ ":" ++ pad2 (sod % 60)

/-- Raw timestamp field value: the API normally sends an integer, but the
code calls `int()` on whatever arrived, so a string form is modelled too. -/
inductive TsRaw where
  | num (n : Int)
  | str (s : String)
  deriving DecidableEq

/-- `int(s)` for a decimal string: optional surrounding whitespace, optional
sign, then at least one digit; `none` models the `ValueError` raise. -/
def pyStrToInt (s : String) : Option Int :=
  let t := s.trim
  let core := if t.startsWith "-" || t.startsWith "+" then t.drop 1 else t
  if !core.isEmpty && core.toList.all Char.isDigit then
    let n : Nat := core.toList.foldl (fun acc c => 10 * acc + (c.toNat - 48)) 0
    some (if t.startsWith "-" then -(n : Int) else (n : Int))
  else none

/-- `int(timestamp)` in `convert_timestamp` (line 117): identity on
integers, decimal parse on strings; `none` models the `ValueError` raise. -/
def TsRaw.toInt : TsRaw → Option Int
  | .num n => some n
  | .str s => pyStrToInt s

/-- One element of `resource.answers`: a mapping that should carry an
`answer` key holding a sequence of strings; `none` models a missing key
(`i["answer"]` raises `KeyError`). -/
structure AnswerElem where
  answer : Option (List String)
  deriving DecidableEq

/-- The nested `resource` mapping of an activity record; every field is
optional (`dict.get` returns `None` when absent). -/
structure Resource where
  zone : Option String := none
  type : Option String := none
  domain : Option String := none
  answers : Option (List AnswerElem) := none
  deriving DecidableEq

/-- One raw activity record as `parse_reports` reads it; every field is
optional.  `resource = none` models a record with no `resource` key, for
which `item["resource"]` raises `KeyError`. -/
structure ActivityRecord where
  user_name : Option String := none
  user_id : Option Int := none
  zone : Option String := none
  timestamp : Option TsRaw := none
  action : Option String := none
  resource : Option Resource := none
  deriving DecidableEq

/-- Python truthiness of an optional string: present and non-empty. -/
def truthyStr : Option String → Bool
  | none => false
  | some s => !s.isEmpty

/-- Python truthiness of the optional `answers` list: present and
non-empty. -/
def truthyAnswers : Option (List AnswerElem) → Bool
  | none => false
  | some l => !l.isEmpty

/-- Exceptions that abort a run.  `keyError` is caught in `parse_reports`
(lines 149-151) and turned into `sys_exit`; the others propagate out of the
function; every one of them ends the process without a report. -/
inductive PyErr where
  | keyError
  | typeError
  | valueError
  | jsonError
  | attrError
  deriving DecidableEq

/-- Values stored in a normalized entry (the per-record `result` dict). -/
inductive EVal where
  | null
  | str (s : String)
  | int (n : Int)
  | strs (l : List String)
  | res (r : Resource)
  deriving DecidableEq

/-- `dict.get` results placed straight into the entry: `None` or a string. -/
def ofOptStr : Option String → EVal
  | none => .null
  | some s => .str s

/-- `dict.get` results placed straight into the entry: `None` or an int. -/
def ofOptInt : Option Int → EVal
  | none => .null
  | some n => .int n

/-- `list(chain.from_iterable([i["answer"] for i in answers]))`
(lines 140-144): `KeyError` when an element lacks the `answer` key,
otherwise the concatenation in order, across elements and within each. -/
def flattenAnswers : List AnswerElem → Except PyErr (List String)
  | [] => .ok []
  | a :: rest =>
    match a.answer with
    | none => .error .keyError
    | some xs => (flattenAnswers rest).map (fun r => xs ++ r)

/-- The body of the `for` loop of `parse_reports` (lines 127-148) for one
record, producing the entry as an insertion-ordered key/value list.  The
order of effects follows the source: `user_name`, `user_id`, the gated
`zone` read (which indexes `item["resource"]`), the timestamp conversion,
`action`, then the unconditional `item["resource"]` accesses. -/
def parseItem (tz : Int) (item : ActivityRecord) :
    Except PyErr (List (String × EVal)) :=
  let r1 := [("user_name", ofOptStr item.user_name),
             ("user_id", ofOptInt item.user_id)]
  let step2 : Except PyErr (List (String × EVal)) :=
    if truthyStr item.zone then
      match item.resource with
      | none => .error .keyError
      | some res => .ok (r1 ++ [("zone", ofOptStr res.zone)])
    else .ok r1
  match step2 with
  | .error e => .error e
  | .ok r2 =>
    match item.timestamp with
    | none => .error .typeError
    | some raw =>
      match raw.toInt with
      | none => .error .valueError
      | some ts =>
        let r3 := r2 ++ [("time", EVal.str (convert_timestamp tz ts)),
                         ("action", ofOptStr item.action)]
        match item.resource with
        | none => .error .keyError
        | some res =>
          let r4 := if truthyStr res.type then r3 ++ [("type", ofOptStr res.type)] else r3
          let r5 := if truthyStr res.domain then r4 ++ [("domain", ofOptStr res.domain)] else r4
          if truthyAnswers res.answers then
            match flattenAnswers (res.answers.getD []) with
            | .error e => .error e
            | .ok flat => .ok (r5 ++ [("answers", EVal.strs flat)])
          else
            .ok (r5 ++ [("resource", EVal.res res)])

/-- The loop of `parse_reports` (lines 124-151) at the level of entries:
records are processed in input order and the first exception aborts the
whole run, discarding everything. -/
def parse_items (tz : Int) : List ActivityRecord →
    Except PyErr (List (List (String × EVal)))
  | [] => .ok []
  | item :: rest =>
    match parseItem tz item with
    | .error e => .error e
    | .ok entry =>
      match parse_items tz rest with
      | .error e => .error e
      | .ok es => .ok (entry :: es)

/-- Rendering of one entry value, modelling the scalar/sequence/mapping
output of `yaml.dump`; the exact quoting rules of PyYAML are irrelevant to
every claim below. -/
def dumpEVal : EVal → String
  | .null => "null"
  | .str s => s
  | .int n => toString n
  | .strs l => String.join (l.map (fun x => "\n- " ++ x))
  | .res r =>
    String.join
      ((match r.zone with | some z => ["\n  zone: " ++ z] | none => []) ++
       (match r.type with | some t => ["\n  type: " ++ t] | none => []) ++
       (match r.domain with | some d => ["\n  domain: " ++ d] | none => []))

/-- `yaml.dump(result, sort_keys=False, allow_unicode=True)` (line 147):
one `key: value` block per key, in insertion order. -/
def yamlDump (e : List (String × EVal)) : String :=
  String.join (e.map (fun kv => kv.1 ++ ": " ++ dumpEVal kv.2 ++ "\n"))

/-- `parse_reports` (lines 121-153): the guard compares `len(reports)` with
`-1` (never equal for a list), the loop appends `"---\n"`, the yaml dump of
the entry and a blank line per record, and the pieces are joined with
`"".join(output)`. -/
def parse_reports (tz : Int) (reports : List ActivityRecord) :
    Except PyErr String :=
  if (reports.length : Int) ≠ -1 then
    (parse_items tz reports).map (fun es =>
      String.join (es.map (fun e => "---\n" ++ yamlDump e ++ "\n")))
  else .ok ""

/-- A decoded JSON body: the activity endpoint answers with an array of
records on success and with an object (normally carrying a `message`
field) on error. -/
inductive JsonBody where
  | arr (records : List ActivityRecord)
  | obj (fields : List (String × String))
  deriving DecidableEq

/-- The HTTP response as `get_reports` sees it after the GET (line 105):
status code, raw body bytes (kept as a string), and the decoded body when
it is valid JSON (`none` models a body on which `r.json()` raises). -/
structure Response where
  status : Nat
  content : String
  jsonBody : Option JsonBody
  deriving DecidableEq

/-- What `get_reports` hands back to its caller: raw bytes in export mode,
the decoded JSON on a 200, or `r.json().get("message")` on an error
response. -/
inductive FetchResult where
  | bytes (raw : String)
  | json (body : JsonBody)
  | message (m : Option String)
  deriving DecidableEq

/-- `dict.get("message")` on the decoded error object. -/
def getMessage (fields : List (String × String)) : Option String :=
  (fields.find? (fun kv => kv.1 == "message")).map Prod.snd

/-- Rendering of a decoded body inside the f-string of line 112. -/
def reprJson : JsonBody → String
  | .arr _ => "[...]"
  | .obj fields =>
    String.intercalate ", " (fields.map (fun kv => kv.1 ++ ": " ++ kv.2))

/-- Response handling of `get_reports` (lines 109-113).  On a 200 it
returns the raw bytes when exporting, else `r.json()` (which raises on an
invalid body).  Otherwise it runs `logging.error(f"r.json() = {r.json()}")`
and returns `r.json().get("message")`: `r.json()` raises when the body is
not valid JSON, and `.get` raises `AttributeError` when the JSON is an
array; both escape `get_reports` and kill the run.  The log lines written
by `logging.error` are returned alongside the result. -/
def get_reports_handle (r : Response) (exportFlag : Bool) :
    Except PyErr (FetchResult × List String) :=
  if r.status = 200 then
    if exportFlag then .ok (.bytes r.content, [])
    else
      match r.jsonBody with
      | none => .error .jsonError
      | some b => .ok (.json b, [])
  else
    match r.jsonBody with
    | none => .error .jsonError
    | some (.arr _) => .error .attrError
    | some (.obj fields) =>
      .ok (.message (getMessage fields), ["r.json() = " ++ reprJson (.obj fields)])

/-- All characters of the string are decimal digits. -/
def allDigits (s : String) : Bool :=
  s.toList.all Char.isDigit

/-- The string has the shape `DD.MM.YYYY HH:MM:SS`: two-digit day, month,
hour, minute and second fields, a four-digit year, with the dot, space and
colon separators of the `"%d.%m.%Y %H:%M:%S"` format of line 116. -/
def matchesTimeFormat (s : String) : Prop :=
  ∃ dd mo yyyy hh mi ss : String,
    dd.length = 2 ∧ allDigits dd = true ∧
    mo.length = 2 ∧ allDigits mo = true ∧
    yyyy.length = 4 ∧ allDigits yyyy = true ∧
    hh.length = 2 ∧ allDigits hh = true ∧
    mi.length = 2 ∧ allDigits mi = true ∧
    ss.length = 2 ∧ allDigits ss = true ∧
    s = dd ++ "." ++ mo ++ "." ++ yyyy ++ " " ++ hh ++ ":" ++ mi ++ ":" ++ ss

/-- The `resource` mapping of the worked example of the spec. -/
def exampleResource : Resource :=
  { domain := some "example.com", type := some "A",
    answers := some [⟨some ["1.2.3.4"]⟩, ⟨some ["5.6.7.8"]⟩] }

/-- The input record of the worked example of the spec. -/
def exampleRecord : ActivityRecord :=
  { user_name := some "a", user_id := some 1,
    timestamp := some (.num 1700000000), action := some "add_record",
    resource := some exampleResource }

/-- A `resource` mapping with a truthy `type` but no `answers`. -/
def typeOnlyResource : Resource :=
  { type := some "A" }

/-- A record whose `resource` carries a truthy `type` but no `answers`. -/
def typeOnlyRecord : ActivityRecord :=
  { timestamp := some (.num 0), resource := some typeOnlyResource }

/-- The entry `parseItem` produces for `typeOnlyRecord` at offset 0. -/
def typeOnlyEntry : List (String × EVal) :=
  [("user_name", .null), ("user_id", .null),
   ("time", .str "01.01.1970 00:00:00"), ("action", .null),
   ("type", .str "A"), ("resource", .res typeOnlyResource)]

/-- A `resource` mapping carrying a `zone` value of its own. -/
def zoneResource : Resource :=
  { zone := some "nested.example", type := some "A" }

/-- A record with a truthy top-level `zone` field and a different value
under `resource.zone`. -/
def zoneRecord : ActivityRecord :=
  { zone := some "toplevel.example", timestamp := some (.num 0),
    resource := some zoneResource }

/-- The entry `parseItem` produces for `zoneRecord` at offset 0: the value
under the `zone` key is the nested one, not the top-level one. -/
def zoneEntry : List (String × EVal) :=
  [("user_name", .null), ("user_id", .null), ("zone", .str "nested.example"),
   ("time", .str "01.01.1970 00:00:00"), ("action", .null),
   ("type", .str "A"), ("resource", .res zoneResource)]

/-- A record with no `timestamp` key at all. -/
def missingTsRecord : ActivityRecord :=
  { resource := some { type := some "A" } }

/-- A record whose `timestamp` is a string `int()` cannot convert. -/
def badTsRecord : ActivityRecord :=
  { timestamp := some (.str "not-a-number"), resource := some { type := some "A" } }

/-- A record with no `resource` key at all. -/
def noResourceRecord : ActivityRecord :=
  { timestamp := some (.num 0) }

/-- A non-200 response whose body is a JSON error object with a message. -/
def errorResponse : Response :=
  { status := 429, content := "rate limit exceeded",
    jsonBody := some (.obj [("message", "rate limit exceeded")]) }

/-- A non-200 response whose body is not valid JSON (for example an HTML
error page from a proxy), on which `r.json()` raises. -/
def htmlErrorResponse : Response :=
  { status := 502, content := "<html>Bad Gateway</html>", jsonBody := none }

/-- Truncation toward zero (`Int.tdiv`, the `int()` of line 97) by a
positive divisor is monotone. -/
theorem tdiv_le_tdiv_right {a b n : Int} (hn : 0 < n) (h : a ≤ b) :
    a.tdiv n ≤ b.tdiv n := by
  rcases le_or_lt 0 a with ha | ha
  · have hb : 0 ≤ b := le_trans ha h
    rw [Int.tdiv_eq_ediv ha (le_of_lt hn), Int.tdiv_eq_ediv hb (le_of_lt hn)]
    exact Int.ediv_le_ediv hn h
  · rcases le_or_lt 0 b with hb | hb
    · have h1 : a.tdiv n ≤ 0 := by
        have h0 : (0:Int) ≤ (-a).tdiv n := Int.tdiv_nonneg (by omega) (le_of_lt hn)
        have h2 := Int.neg_tdiv a n
        omega
      have h2 : 0 ≤ b.tdiv n := Int.tdiv_nonneg hb (le_of_lt hn)
      omega
    · have h1 : (-b) ≤ (-a) := by omega
      have h2 : (-b).tdiv n ≤ (-a).tdiv n := by
        rw [Int.tdiv_eq_ediv (by omega) (le_of_lt hn),
          Int.tdiv_eq_ediv (by omega) (le_of_lt hn)]
        exact Int.ediv_le_ediv hn h1
      have h3 := Int.neg_tdiv a n
      have h4 := Int.neg_tdiv b n
      omega

/-- Truncation toward zero by a positive divisor is strictly monotone as
soon as the two numerators are at least `2 * n` apart.  (A gap of `n` is
not enough: around zero the truncation collapses the whole open interval
`(-n, n)` to `0`.) -/
theorem tdiv_lt_tdiv_of_gap {a b n : Int} (hn : 0 < n) (h : a + 2 * n ≤ b) :
    a.tdiv n < b.tdiv n := by
  rcases le_or_lt 0 a with ha | ha
  · have hb : 0 ≤ b := by omega
    rw [Int.tdiv_eq_ediv ha (le_of_lt hn), Int.tdiv_eq_ediv hb (le_of_lt hn)]
    have h1 : (a + 2 * n) / n ≤ b / n := Int.ediv_le_ediv hn h
    have h2 : (a + 2 * n) / n = a / n + 2 := Int.add_mul_ediv_right a 2 (by omega)
    have h3 : 0 ≤ a / n := Int.ediv_nonneg ha (le_of_lt hn)
    omega
  · rcases le_or_lt 0 b with hb | hb
    · have hna := Int.neg_tdiv a n
      have htdb : b.tdiv n = b / n := Int.tdiv_eq_ediv hb (le_of_lt hn)
      have htda : (-a).tdiv n = (-a) / n := Int.tdiv_eq_ediv (by omega) (le_of_lt hn)
      rcases le_or_lt a (-n) with hle | hgt
      · have h1 : n / n ≤ (-a) / n := Int.ediv_le_ediv hn (by omega)
        have h2 : n / n = 1 := Int.ediv_self (by omega)
        have h3 : 0 ≤ b / n := Int.ediv_nonneg hb (le_of_lt hn)
        omega
      · have hbn : n ≤ b := by omega
        have h1 : n / n ≤ b / n := Int.ediv_le_ediv hn hbn
        have h2 : n / n = 1 := Int.ediv_self (by omega)
        have h3 : 0 ≤ (-a) / n := Int.ediv_nonneg (by omega) (le_of_lt hn)
        omega
    · have h1 : (-b) + 2 * n ≤ (-a) := by omega
      have h2 : (-b).tdiv n < (-a).tdiv n := by
        rw [Int.tdiv_eq_ediv (by omega) (le_of_lt hn),
          Int.tdiv_eq_ediv (by omega) (le_of_lt hn)]
        have h3 : ((-b) + 2 * n) / n ≤ (-a) / n := Int.ediv_le_ediv hn h1
        have h4 : ((-b) + 2 * n) / n = (-b) / n + 2 := Int.add_mul_ediv_right (-b) 2 (by omega)
        omega
      have h5 := Int.neg_tdiv a n
      have h6 := Int.neg_tdiv b n
      omega

/-- C7: for every unit and every pair of amounts `a1 ≤ a2`, holding the
wall-clock time fixed, the computed `start_epoch_seconds` for `(unit, a2)`
is less than or equal to the one for `(unit, a1)`: the window start is
monotonically non-increasing in the amount. -/
theorem c7_start_antitone (now_us : Nat) (unit : TUnit) (a1 a2 : Nat)
    (h : a1 ≤ a2) :
    start_from now_us unit a2 ≤ start_from now_us unit a1 := by
  unfold start_from
  apply tdiv_le_tdiv_right (by norm_num)
  have hu : (0:Int) ≤ (unit.micros : Int) := Int.ofNat_nonneg _
  have h1 : (a1 : Int) ≤ (a2 : Int) := by exact_mod_cast h
  have h2 := mul_le_mul_of_nonneg_right h1 hu
  omega

/-- Witness for C7 at a concrete clock value, unit and pair of amounts. -/
theorem c7_witness :
    start_from 1700000000500000 TUnit.hours 2 ≤
      start_from 1700000000500000 TUnit.hours 1 :=
  c7_start_antitone 1700000000500000 TUnit.hours 1 2 (by decide)

/-- C2 fails as stated: with the clock fixed at `1700000000500000` µs and
`unit = microseconds`, the amounts `0 < 1` produce the same start value, so
the strict decrease claimed for every `a1 < a2` does not hold. -/
theorem c2_counterexample :
    (0 : Nat) < 1 ∧
    decide (start_from 1700000000500000 TUnit.microseconds 1 <
      start_from 1700000000500000 TUnit.microseconds 0) = false := by
  decide

/-- C2 amended: the start value strictly decreases from `a1` to `a2 > a1`
whenever the widening of the window, `(a2 - a1)` units, spans at least two
seconds (`2000000` µs); `int()` truncation toward zero can collapse
narrower gaps (sub-second units, or a one-second step across the 1970
epoch).  Together with `c7_start_antitone` the value is otherwise still
non-increasing. -/
theorem c2_amended (now_us : Nat) (unit : TUnit) (a1 a2 : Nat)
    (h1 : a1 < a2) (h2 : 2000000 ≤ (a2 - a1) * unit.micros) :
    start_from now_us unit a2 < start_from now_us unit a1 := by
  unfold start_from
  apply tdiv_lt_tdiv_of_gap (by norm_num)
  have h2i : (2000000 : Int) ≤ (((a2 - a1) * unit.micros : Nat) : Int) := by
    exact_mod_cast h2
  have hsub : (((a2 - a1) * unit.micros : Nat) : Int) =
      ((a2 : Int) - (a1 : Int)) * (unit.micros : Int) := by
    push_cast [Nat.cast_sub (le_of_lt h1)]
    ring
  rw [hsub, sub_mul] at h2i
  linarith

/-- Witness for the amended C2 at a concrete clock value and amounts. -/
theorem c2_witness :
    start_from 1700000000500000 TUnit.hours 2 <
      start_from 1700000000500000 TUnit.hours 1 :=
  c2_amended 1700000000500000 TUnit.hours 1 2 (by decide) (by decide)

/-- C8: normalizing the empty record list returns the empty report, and the
`len(reports) != -1` sentinel guard never fires: every list, empty or not,
goes through the normal processing path. -/
theorem c8_empty_report :
    (∀ tz : Int, parse_reports tz [] = Except.ok "") ∧
    (∀ (tz : Int) (l : List ActivityRecord),
      parse_reports tz l = (parse_items tz l).map (fun es =>
        String.join (es.map (fun e => "---\n" ++ yamlDump e ++ "\n")))) := by
  constructor
  · intro tz
    rfl
  · intro tz l
    unfold parse_reports
    have hg : ((l.length : Int) ≠ -1) := by omega
    rw [if_pos hg]

/-- A record whose timestamp is absent (`int(None)` raises `TypeError`) or
not convertible (`int()` raises `ValueError`) always makes `parseItem`
raise: either at the conversion itself, or earlier at the `KeyError` of the
gated `item["resource"]` read. -/
theorem parseItem_error_of_bad_ts (tz : Int) (item : ActivityRecord)
    (h : item.timestamp.bind TsRaw.toInt = none) :
    ∃ e, parseItem tz item = .error e := by
  cases hz : truthyStr item.zone with
  | true =>
    cases hres : item.resource with
    | none => exact ⟨.keyError, by simp [parseItem, hz, hres]⟩
    | some res =>
      cases hts : item.timestamp with
      | none => exact ⟨.typeError, by simp [parseItem, hz, hres, hts]⟩
      | some raw =>
        rw [hts] at h
        simp only [Option.bind] at h
        exact ⟨.valueError, by simp [parseItem, hz, hres, hts, h]⟩
  | false =>
    cases hts : item.timestamp with
    | none => exact ⟨.typeError, by simp [parseItem, hz, hts]⟩
    | some raw =>
      rw [hts] at h
      simp only [Option.bind] at h
      exact ⟨.valueError, by simp [parseItem, hz, hts, h]⟩

/-- A record with no `resource` key always makes `parseItem` raise a
`KeyError`: either at the gated `zone` read (line 132) or at the
unconditional `item["resource"].get("type")` (line 135); at worst an
earlier timestamp problem aborts first. -/
theorem parseItem_error_of_no_resource (tz : Int) (item : ActivityRecord)
    (h : item.resource = none) :
    ∃ e, parseItem tz item = .error e := by
  cases hz : truthyStr item.zone with
  | true => exact ⟨.keyError, by simp [parseItem, hz, h]⟩
  | false =>
    cases hts : item.timestamp with
    | none => exact ⟨.typeError, by simp [parseItem, hz, hts]⟩
    | some raw =>
      cases hti : raw.toInt with
      | none => exact ⟨.valueError, by simp [parseItem, hz, hts, hti]⟩
      | some n => exact ⟨.keyError, by simp [parseItem, hz, hts, hti, h]⟩

/-- If some record of the list makes `parseItem` raise, the whole loop
raises: nothing survives, whatever came before or after. -/
theorem parse_items_error_mem (tz : Int) (l1 l2 : List ActivityRecord)
    (item : ActivityRecord) (h : ∃ e, parseItem tz item = .error e) :
    ∃ e, parse_items tz (l1 ++ item :: l2) = .error e := by
  induction l1 with
  | nil =>
    obtain ⟨e, he⟩ := h
    exact ⟨e, by simp [parse_items, he]⟩
  | cons a rest ih =>
    obtain ⟨e2, he2⟩ := ih
    cases hpa : parseItem tz a with
    | error e => exact ⟨e, by simp [parse_items, hpa]⟩
    | ok entry => exact ⟨e2, by simp [parse_items, hpa, he2]⟩

/-- An exception in the loop aborts `parse_reports` itself: no report
string is produced. -/
theorem parse_reports_error (tz : Int) (l : List ActivityRecord)
    (h : ∃ e, parse_items tz l = .error e) :
    ∃ e, parse_reports tz l = .error e := by
  obtain ⟨e, he⟩ := h
  refine ⟨e, ?_⟩
  unfold parse_reports
  have hg : ((l.length : Int) ≠ -1) := by omega
  rw [if_pos hg, he]
  rfl

/-- C5: a record whose `timestamp` is absent or not convertible to an epoch
integer aborts the entire run: whatever valid records stand before or after
it in the input, `parse_reports` ends in an exception and emits no entry at
all. -/
theorem c5_bad_timestamp_aborts (tz : Int) (l1 l2 : List ActivityRecord)
    (item : ActivityRecord) (h : item.timestamp.bind TsRaw.toInt = none) :
    ∃ e, parse_reports tz (l1 ++ item :: l2) = .error e :=
  parse_reports_error tz (l1 ++ item :: l2)
    (parse_items_error_mem tz l1 l2 item (parseItem_error_of_bad_ts tz item h))

/-- Witness for C5: a valid record followed by one with no timestamp. -/
theorem c5_witness :
    ∃ e, parse_reports 0 ([typeOnlyRecord] ++ missingTsRecord :: []) = .error e :=
  c5_bad_timestamp_aborts 0 [typeOnlyRecord] [] missingTsRecord (by decide)

/-- C10: a record with no `resource` key at all aborts the entire run, even
though every field of the data model is nominally optional: the
`item["resource"]` lookup is unconditional, and no report is returned. -/
theorem c10_missing_resource_aborts (tz : Int) (l1 l2 : List ActivityRecord)
    (item : ActivityRecord) (h : item.resource = none) :
    ∃ e, parse_reports tz (l1 ++ item :: l2) = .error e :=
  parse_reports_error tz (l1 ++ item :: l2)
    (parse_items_error_mem tz l1 l2 item (parseItem_error_of_no_resource tz item h))

/-- Witness for C10: a valid record followed by one without `resource`. -/
theorem c10_witness :
    ∃ e, parse_reports 0 ([typeOnlyRecord] ++ noResourceRecord :: []) = .error e :=
  c10_missing_resource_aborts 0 [typeOnlyRecord] [] noResourceRecord (by decide)

/-- Hoisting an append out of a conditional. -/
theorem append_ite {α : Type} (c : Prop) [Decidable c] (X A : List α) :
    (if c then X ++ A else X) = X ++ (if c then A else []) := by
  split <;> simp

/-- Inversion for a successful `parseItem`: the record necessarily had a
`resource` and a convertible `timestamp`, and the entry is the fixed-order
key list with `zone`, `type` and `domain` present exactly under their
truthiness gates, ending in either the flattened `answers` or the raw
`resource` passthrough, the choice depending only on the truthiness of
`resource.answers`. -/
theorem parseItem_ok_shape (tz : Int) (item : ActivityRecord)
    (e : List (String × EVal)) (h : parseItem tz item = .ok e) :
    ∃ res raw n tail,
      item.resource = some res ∧
      item.timestamp = some raw ∧
      raw.toInt = some n ∧
      e = [("user_name", ofOptStr item.user_name),
           ("user_id", ofOptInt item.user_id)] ++
          (if truthyStr item.zone then [("zone", ofOptStr res.zone)] else []) ++
          [("time", EVal.str (convert_timestamp tz n)),
           ("action", ofOptStr item.action)] ++
          (if truthyStr res.type then [("type", ofOptStr res.type)] else []) ++
          (if truthyStr res.domain then [("domain", ofOptStr res.domain)] else []) ++
          tail ∧
      ((truthyAnswers res.answers = true ∧
        ∃ flat, flattenAnswers (res.answers.getD []) = .ok flat ∧
          tail = [("answers", EVal.strs flat)]) ∨
       (truthyAnswers res.answers = false ∧
        tail = [("resource", EVal.res res)])) := by
  cases hres : item.resource with
  | none =>
    rcases parseItem_error_of_no_resource tz item hres with ⟨e2, he2⟩
    rw [he2] at h
    exact absurd h (by simp)
  | some res =>
    cases hts : item.timestamp with
    | none =>
      cases hz : truthyStr item.zone <;> simp [parseItem, hres, hts, hz] at h
    | some raw =>
      cases hti : raw.toInt with
      | none =>
        cases hz : truthyStr item.zone <;> simp [parseItem, hres, hts, hti, hz] at h
      | some n =>
        cases hans : truthyAnswers res.answers with
        | false =>
          cases hz : truthyStr item.zone <;>
            simp only [parseItem, hres, hts, hti, hans, hz, Bool.false_eq_true,
              if_false, if_true, Except.ok.injEq] at h <;>
            refine ⟨res, raw, n, [("resource", EVal.res res)], rfl, rfl, hti, ?_,
              Or.inr ⟨hans, rfl⟩⟩ <;>
            rw [← h] <;>
            rw [append_ite, append_ite] <;>
            simp [hz]
        | true =>
          cases hfl : flattenAnswers (res.answers.getD []) with
          | error e2 =>
            cases hz : truthyStr item.zone <;>
              simp [parseItem, hres, hts, hti, hans, hz, hfl] at h
          | ok flat =>
            cases hz : truthyStr item.zone <;>
              simp only [parseItem, hres, hts, hti, hans, hz, hfl, Bool.false_eq_true,
                if_false, if_true, Except.ok.injEq] at h <;>
              refine ⟨res, raw, n, [("answers", EVal.strs flat)], rfl, rfl, hti, ?_,
                Or.inl ⟨hans, flat, hfl, rfl⟩⟩ <;>
              rw [← h] <;>
              rw [append_ite, append_ite] <;>
              simp [hz]

/-- C4: the normalized entry of a record carries a `zone` key exactly when
the record's top-level `zone` field is truthy, and the value stored under
that key is read from the `resource.zone` sub-field, not from the
top-level field. -/
theorem c4_zone_gated (tz : Int) (item : ActivityRecord)
    (e : List (String × EVal)) (h : parseItem tz item = .ok e) :
    (("zone" ∈ e.map Prod.fst) ↔ truthyStr item.zone = true) ∧
    (truthyStr item.zone = true →
      ∃ res, item.resource = some res ∧ ("zone", ofOptStr res.zone) ∈ e) := by
  obtain ⟨res, raw, n, tail, hres, hts, hti, he, htail⟩ := parseItem_ok_shape tz item e h
  subst he
  constructor
  · rcases htail with ⟨hans, flat, hflat, ht⟩ | ⟨hans, ht⟩ <;> subst ht <;>
      cases hz : truthyStr item.zone <;>
      cases hty : truthyStr res.type <;>
      cases hdom : truthyStr res.domain <;>
      simp [hz, hty, hdom]
  · intro hzt
    exact ⟨res, hres, by simp [hzt]⟩

/-- Witness for C4: a record whose top-level `zone` is truthy and whose
`resource.zone` holds a different value; the entry carries a `zone` key
and its value comes from `resource.zone`. -/
theorem c4_witness :
    (("zone" ∈ zoneEntry.map Prod.fst) ↔ truthyStr zoneRecord.zone = true) ∧
    (truthyStr zoneRecord.zone = true →
      ∃ res, zoneRecord.resource = some res ∧
        ("zone", ofOptStr res.zone) ∈ zoneEntry) :=
  c4_zone_gated 0 zoneRecord zoneEntry rfl

/-- C9: the keys of every successfully normalized entry respect the fixed
relative order `user_name`, `user_id`, `zone`, `time`, `action`, `type`,
`domain`, then `answers` or `resource`, and each optional key is present
exactly under its presence rule. -/
theorem c9_key_order (tz : Int) (item : ActivityRecord)
    (e : List (String × EVal)) (h : parseItem tz item = .ok e) :
    (e.map Prod.fst).Sublist
      ["user_name", "user_id", "zone", "time", "action",
       "type", "domain", "answers", "resource"] ∧
    "user_name" ∈ e.map Prod.fst ∧ "user_id" ∈ e.map Prod.fst ∧
    "time" ∈ e.map Prod.fst ∧ "action" ∈ e.map Prod.fst ∧
    (("zone" ∈ e.map Prod.fst) ↔ truthyStr item.zone = true) ∧
    (∀ res2, item.resource = some res2 →
      (("type" ∈ e.map Prod.fst) ↔ truthyStr res2.type = true) ∧
      (("domain" ∈ e.map Prod.fst) ↔ truthyStr res2.domain = true) ∧
      (("answers" ∈ e.map Prod.fst) ↔ truthyAnswers res2.answers = true) ∧
      (("resource" ∈ e.map Prod.fst) ↔ truthyAnswers res2.answers = false)) := by
  obtain ⟨res, raw, n, tail, hres, hts, hti, he, htail⟩ := parseItem_ok_shape tz item e h
  subst he
  have hresiff : ∀ res2, item.resource = some res2 → res2 = res := by
    intro res2 h2
    rw [hres] at h2
    injection h2 with h3
    exact h3.symm
  rcases htail with ⟨hans, flat, hflat, ht⟩ | ⟨hans, ht⟩ <;> subst ht <;>
    cases hz : truthyStr item.zone <;>
    cases hty : truthyStr res.type <;>
    cases hdom : truthyStr res.domain <;>
    refine ⟨by simp [hz, hty, hdom]; try decide, by simp, by simp, by simp, by simp,
      by simp [hz, hty, hdom], ?_⟩ <;>
    · intro res2 h2
      have h3 := hresiff res2 h2
      subst h3
      simp [hz, hty, hdom, hans]

/-- Witness for C9 at a concrete record and its concrete entry. -/
theorem c9_witness :
    (typeOnlyEntry.map Prod.fst).Sublist
      ["user_name", "user_id", "zone", "time", "action",
       "type", "domain", "answers", "resource"] ∧
    "user_name" ∈ typeOnlyEntry.map Prod.fst ∧
    "user_id" ∈ typeOnlyEntry.map Prod.fst ∧
    "time" ∈ typeOnlyEntry.map Prod.fst ∧
    "action" ∈ typeOnlyEntry.map Prod.fst ∧
    (("zone" ∈ typeOnlyEntry.map Prod.fst) ↔ truthyStr typeOnlyRecord.zone = true) ∧
    (∀ res2, typeOnlyRecord.resource = some res2 →
      (("type" ∈ typeOnlyEntry.map Prod.fst) ↔ truthyStr res2.type = true) ∧
      (("domain" ∈ typeOnlyEntry.map Prod.fst) ↔ truthyStr res2.domain = true) ∧
      (("answers" ∈ typeOnlyEntry.map Prod.fst) ↔ truthyAnswers res2.answers = true) ∧
      (("resource" ∈ typeOnlyEntry.map Prod.fst) ↔ truthyAnswers res2.answers = false)) :=
  c9_key_order 0 typeOnlyRecord typeOnlyEntry rfl

/-- C3 fails as stated: this record's `resource` has a truthy `type` (and
no `answers`), yet the normalized entry still contains the raw `resource`
passthrough, side by side with the `type` key. -/
theorem c3_counterexample :
    parseItem 0 typeOnlyRecord = .ok typeOnlyEntry ∧
    truthyStr typeOnlyResource.type = true ∧
    "type" ∈ typeOnlyEntry.map Prod.fst ∧
    "resource" ∈ typeOnlyEntry.map Prod.fst :=
  ⟨rfl, rfl, by decide, by decide⟩

/-- C3 amended: the raw `resource` passthrough is present in the entry
exactly when `resource.answers` is absent or empty (not truthy), regardless
of `type` and `domain`; the flattened `answers` key is present exactly when
`resource.answers` is truthy, and never together with the passthrough. -/
theorem c3_passthrough_amended (tz : Int) (item : ActivityRecord)
    (e : List (String × EVal)) (res : Resource)
    (h : parseItem tz item = .ok e) (hres : item.resource = some res) :
    (("resource" ∈ e.map Prod.fst) ↔ truthyAnswers res.answers = false) ∧
    (("answers" ∈ e.map Prod.fst) ↔ truthyAnswers res.answers = true) := by
  obtain ⟨res2, raw, n, tail, hres2, hts, hti, he, htail⟩ := parseItem_ok_shape tz item e h
  rw [hres] at hres2
  injection hres2 with h4
  subst h4
  subst he
  rcases htail with ⟨hans, flat, hflat, ht⟩ | ⟨hans, ht⟩ <;> subst ht <;>
    cases hz : truthyStr item.zone <;>
    cases hty : truthyStr res.type <;>
    cases hdom : truthyStr res.domain <;>
    simp [hz, hty, hdom, hans]

/-- Witness for the amended C3 at a concrete record and entry. -/
theorem c3_witness :
    (("resource" ∈ typeOnlyEntry.map Prod.fst) ↔
      truthyAnswers typeOnlyResource.answers = false) ∧
    (("answers" ∈ typeOnlyEntry.map Prod.fst) ↔
      truthyAnswers typeOnlyResource.answers = true) :=
  c3_passthrough_amended 0 typeOnlyRecord typeOnlyEntry typeOnlyResource rfl rfl

/-- C6 fails as stated: a non-200 response whose body is not valid JSON
(an HTML error page, say) makes `r.json()` on line 112 raise instead of
returning the API message — the process does crash on such a response. -/
theorem c6_counterexample :
    (htmlErrorResponse.status == 200) = false ∧
    get_reports_handle htmlErrorResponse false = .error PyErr.jsonError :=
  ⟨rfl, rfl⟩

/-- C6 amended: for every non-200 response whose body decodes as a JSON
object, `get_reports` does not crash: it logs the decoded body and returns
the object's `message` field (the API message string when present, `None`
when absent) instead of records or bytes; a body that is not a JSON object
instead raises and kills the run. -/
theorem c6_message_amended (r : Response) (fields : List (String × String))
    (exportFlag : Bool) (h1 : r.status ≠ 200)
    (h2 : r.jsonBody = some (.obj fields)) :
    get_reports_handle r exportFlag =
      .ok (.message (getMessage fields),
           ["r.json() = " ++ reprJson (.obj fields)]) := by
  unfold get_reports_handle
  rw [if_neg h1, h2]

/-- Witness for the amended C6 at a concrete 429 response. -/
theorem c6_witness :
    get_reports_handle errorResponse false =
      .ok (.message (getMessage [("message", "rate limit exceeded")]),
           ["r.json() = " ++ reprJson (.obj [("message", "rate limit exceeded")])]) :=
  c6_message_amended errorResponse [("message", "rate limit exceeded")] false
    (by decide) rfl

/-- `pad2` of a value below 100 is a two-character digit string. -/
theorem pad2_two_digits : ∀ n < 100, (pad2 n).length = 2 ∧ allDigits (pad2 n) = true := by
  decide

/-- C1: normalizing the spec's worked example yields exactly one entry,
with `domain = "example.com"`, `type = "A"`, the answers flattened in
order to `["1.2.3.4", "5.6.7.8"]`, and a `time` field that is the epoch
1700000000 rendered by `convert_timestamp` in local time, in the
`DD.MM.YYYY HH:MM:SS` shape.  The local offset is quantified over the
real-world range of UTC offsets (within fourteen hours of UTC). -/
theorem c1_example (tz : Int) (h1 : -50400 ≤ tz) (h2 : tz ≤ 50400) :
    parse_items tz [exampleRecord] =
      .ok [[("user_name", .str "a"), ("user_id", .int 1),
            ("time", EVal.str (convert_timestamp tz 1700000000)),
            ("action", .str "add_record"),
            ("type", .str "A"), ("domain", .str "example.com"),
            ("answers", .strs ["1.2.3.4", "5.6.7.8"])]] ∧
    matchesTimeFormat (convert_timestamp tz 1700000000) := by
  refine ⟨rfl, ?_⟩
  have hdlo : (19675 : Int) ≤ (1700000000 + tz) / 86400 := by
    have hstep := Int.ediv_le_ediv (by norm_num : (0:Int) < 86400)
      (show (1699949600 : Int) ≤ 1700000000 + tz by omega)
    have hval : (1699949600 : Int) / 86400 = 19675 := by decide
    omega
  have hdhi : (1700000000 + tz) / 86400 ≤ 19676 := by
    have hstep := Int.ediv_le_ediv (by norm_num : (0:Int) < 86400)
      (show (1700000000 + tz : Int) ≤ 1700050400 by omega)
    have hval : (1700050400 : Int) / 86400 = 19676 := by decide
    omega
  have hsod0 : 0 ≤ (1700000000 + tz) % 86400 := Int.emod_nonneg _ (by norm_num)
  have hsod1 : (1700000000 + tz) % 86400 < 86400 := Int.emod_lt_of_pos _ (by norm_num)
  have hsodn : ((1700000000 + tz) % 86400).toNat < 86400 := by omega
  have hdays : (1700000000 + tz) / 86400 = 19675 ∨ (1700000000 + tz) / 86400 = 19676 := by
    omega
  simp only [convert_timestamp]
  rcases hdays with hd | hd <;> rw [hd]
  · have hc : civilFromDays 19675 = (2023, 11, 14) := by decide
    rw [hc]
    refine ⟨pad2 14, pad2 11, toString (2023 : Int),
      pad2 (((1700000000 + tz) % 86400).toNat / 3600),
      pad2 (((1700000000 + tz) % 86400).toNat % 3600 / 60),
      pad2 (((1700000000 + tz) % 86400).toNat % 60),
      ?_, ?_, ?_, ?_, ?_, ?_, ?_, ?_, ?_, ?_, ?_, ?_, rfl⟩
    · decide
    · decide
    · decide
    · decide
    · decide
    · decide
    · exact (pad2_two_digits _ (by omega)).1
    · exact (pad2_two_digits _ (by omega)).2
    · exact (pad2_two_digits _ (by omega)).1
    · exact (pad2_two_digits _ (by omega)).2
    · exact (pad2_two_digits _ (by omega)).1
    · exact (pad2_two_digits _ (by omega)).2
  · have hc : civilFromDays 19676 = (2023, 11, 15) := by decide
    rw [hc]
    refine ⟨pad2 15, pad2 11, toString (2023 : Int),
      pad2 (((1700000000 + tz) % 86400).toNat / 3600),
      pad2 (((1700000000 + tz) % 86400).toNat % 3600 / 60),
      pad2 (((1700000000 + tz) % 86400).toNat % 60),
      ?_, ?_, ?_, ?_, ?_, ?_, ?_, ?_, ?_, ?_, ?_, ?_, rfl⟩
    · decide
    · decide
    · decide
    · decide
    · decide
    · decide
    · exact (pad2_two_digits _ (by omega)).1
    · exact (pad2_two_digits _ (by omega)).2
    · exact (pad2_two_digits _ (by omega)).1
    · exact (pad2_two_digits _ (by omega)).2
    · exact (pad2_two_digits _ (by omega)).1
    · exact (pad2_two_digits _ (by omega)).2

/-- Witness for C1 at the UTC offset 0. -/
theorem c1_witness :
    -50400 ≤ (0 : Int) ∧ (0 : Int) ≤ 50400 ∧
    (parse_items 0 [exampleRecord] =
      .ok [[("user_name", .str "a"), ("user_id", .int 1),
            ("time", EVal.str (convert_timestamp 0 1700000000)),
            ("action", .str "add_record"),
            ("type", .str "A"), ("domain", .str "example.com"),
            ("answers", .strs ["1.2.3.4", "5.6.7.8"])]] ∧
    matchesTimeFormat (convert_timestamp 0 1700000000)) :=
  ⟨by norm_num, by norm_num, c1_example 0 (by norm_num) (by norm_num)⟩

end NsoneReports
